import Mathlib

/-!
Shallow embedding of the PDF size-reduction pipeline in `app.py`
(`reduce_pdf_size`, lines 17-116), together with the external pypdf/Pillow
collaborators it calls, modelled as an explicit library-interface record.
-/

namespace PDFShrink

/-- Raw byte strings are modelled as lists of naturals. -/
abbrev Bytes := List Nat

/-- A decoded raster image as produced by Pillow (`pypdf_img_obj.image`):
a color mode plus an opaque decoded pixel buffer. -/
structure PILImage where
  mode : String
  pixels : List Nat
deriving Repr, DecidableEq

/-- One embedded image object on a page, as seen through pypdf's image
wrapper: whether the object has the expected `get` accessor
(`hasattr(pypdf_img_obj, 'get')`, line 61), the string form of its
`/Filter` entry (line 66), the Pillow image extracted from it (line 70,
`none` when Pillow could not produce data), and its current encoded
stream bytes. -/
structure ImageObj where
  hasGet : Bool
  filter : Option String
  pil : Option PILImage
  data : Bytes
deriving Repr, DecidableEq

/-- One PDF page: its content stream plus its embedded images. -/
structure Page where
  content : Bytes
  images : List ImageObj
deriving Repr, DecidableEq

/-- Modelled from the spec: the external PDF/image library boundary
(spec section 6, host interface consumed). The repository code is a client
of pypdf and Pillow; those libraries are not part of this repository, so
their operations are modelled as an explicit record of functions:
`parse` is `PdfReader` construction (fallible: `DocumentParseError`),
`deflate` is the lossless content-stream compression behind
`compress_content_streams(level)`, `serialize` is `PdfWriter.write`
(fallible: `SerializationError`), `rgbOf` is the pixel transform of
Pillow's `convert("RGB")`, `jpegEncode` is Pillow's JPEG save at a given
quality (fallible), and `reencodeSameFamily` is pypdf's
`ImageFile.replace(pil, quality=q)`, which re-encodes the decoded image
in its original encoding family at the given quality (fallible). -/
structure Lib where
  parse : Bytes → Except String (List Page)
  deflate : Nat → Bytes → Bytes
  serialize : List Page → Except String Bytes
  rgbOf : List Nat → List Nat
  jpegEncode : List Nat → Nat → Except String Bytes
  reencodeSameFamily : Option String → PILImage → Nat → Except String Bytes

/-- Severity of a diagnostic surfaced through the host interface
(`st.info` / `st.warning` / `st.error`). -/
inductive DiagLevel
  | info
  | warning
  | error
deriving Repr, DecidableEq

/-- The diagnostics the pipeline emits: the warning for an object without
the expected accessor (line 62), the info for an image whose data could
not be extracted (line 73), the info for a non-photographic image left
untouched at a quality above the aggressive threshold (lines 90-92), the
warning from the per-image exception handler (lines 96-98), and the fatal
error from the whole-run handler (lines 114-115). -/
inductive Diag
  | warnUnexpectedObject
  | infoNoData
  | infoNotCompressed (q : Nat)
  | warnImageError (msg : String)
  | errorFatal (msg : String)
deriving Repr, DecidableEq

/-- Severity level of each diagnostic. -/
def Diag.level : Diag → DiagLevel
  | .warnUnexpectedObject => .warning
  | .infoNoData => .info
  | .infoNotCompressed _ => .info
  | .warnImageError _ => .warning
  | .errorFatal _ => .error

/-- Whether `pat` occurs at the start of `s` (character lists). -/
def startsWithChars : List Char → List Char → Bool
  | [], _ => true
  | _ :: _, [] => false
  | p :: ps, c :: cs => p == c && startsWithChars ps cs

/-- Whether `pat` occurs as a contiguous run inside `s` (character lists). -/
def hasSubChars (pat : List Char) : List Char → Bool
  | [] => pat.isEmpty
  | c :: cs => startsWithChars pat (c :: cs) || hasSubChars pat cs

/-- Python's `pat in s` substring test on strings. -/
def strHasSub (s pat : String) : Bool :=
  hasSubChars pat.toList s.toList

/-- Line 67: `str(img_filter_obj) if img_filter_obj else "/Unknown"`. -/
def filterStr : Option String → String
  | some s => s
  | none => "/Unknown"

/-- Line 77: `"/DCTDecode" in img_filter_str or "/JPXDecode" in img_filter_str`. -/
def isPhotographic (fs : String) : Bool :=
  strHasSub fs "/DCTDecode" || strHasSub fs "/JPXDecode"

/-- Pillow's `convert("RGB")` (line 83). Modelled from the spec: the
conversion forces a 3-channel RGB representation, so the resulting mode is
always `"RGB"`; the pixel transform itself is the library's `rgbOf`. -/
def PILImage.convertRGB (lib : Lib) (img : PILImage) : PILImage :=
  { mode := "RGB", pixels := lib.rgbOf img.pixels }

/-- Lines 80-87: the aggressive non-photographic fallback. Decode is
already in hand (`pil`); convert to RGB, save as JPEG at `image_quality`,
and on success replace the image bytes, explicitly tagging the filter as
`/DCTDecode`. A failure raises, is caught by the handler at line 94, and
leaves the image untouched with a warning diagnostic. -/
def aggressiveRecode (lib : Lib) (image_quality : Nat) (img : ImageObj)
    (pil : PILImage) : ImageObj × List Diag :=
  let rgb_image := PILImage.convertRGB lib pil
  match lib.jpegEncode rgb_image.pixels image_quality with
  | .ok newBytes => ({ img with data := newBytes, filter := some "/DCTDecode" }, [])
  | .error e => (img, [Diag.warnImageError e])

/-- Lines 58-100: the body of the per-image loop, including its
try/except. Returns the (possibly replaced) image together with the
diagnostics emitted while processing it. -/
def processImage (lib : Lib) (image_quality : Nat) (img : ImageObj) :
    ImageObj × List Diag :=
  if img.hasGet = false then
    (img, [Diag.warnUnexpectedObject])
  else
    let fs := filterStr img.filter
    match img.pil with
    | none => (img, [Diag.infoNoData])
    | some pil =>
      if isPhotographic fs then
        match lib.reencodeSameFamily img.filter pil image_quality with
        | .ok newBytes => ({ img with data := newBytes }, [])
        | .error e => (img, [Diag.warnImageError e])
      else if image_quality ≤ 40 then
        aggressiveRecode lib image_quality img pil
      else
        (img, [Diag.infoNotCompressed image_quality])

/-- Lines 45-100: one page's trip through the writer. The page is added
to the writer, its content streams are compressed losslessly at
`compression_level` (line 51), and, only when `image_quality < 100`
(line 54), the embedded images are snapshotted into a list (line 56) and
each is processed in order. -/
def processPage (lib : Lib) (compression_level image_quality : Nat)
    (page : Page) : Page × List Diag :=
  let compressed := { page with content := lib.deflate compression_level page.content }
  if image_quality < 100 then
    let images_on_page := compressed.images
    let results := images_on_page.map (processImage lib image_quality)
    ({ compressed with images := results.map Prod.fst },
      (results.map Prod.snd).flatten)
  else
    (compressed, [])

/-- Lines 41-100: the page loop — every page of the parsed document is
appended to the writer and processed, in order. -/
def rebuildDocument (lib : Lib) (compression_level image_quality : Nat)
    (pages : List Page) : List Page × List Diag :=
  let results := pages.map (processPage lib compression_level image_quality)
  (results.map Prod.fst, (results.map Prod.snd).flatten)

/-- Line 103: `writer.compress_identical_objects(remove_identicals=True,
remove_orphans=True)`. Modelled from the spec: this deduplicates
structurally identical indirect objects and removes unreachable ones in
the writer's object table; per the spec (sections 4.3 and 8) it never
adds, removes or reorders pages, so on this page-level model it is the
identity on the page list. -/
def compress_identical_objects (pages : List Page) : List Page :=
  pages

/-- Lines 33-116: the whole `reduce_pdf_size` function. Reads the upload
buffer, records its length, parses, rebuilds page by page, optimizes,
serializes, and returns the triple `(output bytes, original size,
compressed size)`; a fatal failure in parsing or serialization is caught
by the handler at line 113 and yields `(None, None, None)` with an
error-level diagnostic. The second component collects the diagnostics
that the source surfaces through `st.info` / `st.warning` / `st.error`. -/
def reduce_pdf_size (lib : Lib) (uploaded_file : Bytes)
    (compression_level image_quality : Nat) :
    (Option Bytes × Option Nat × Option Nat) × List Diag :=
  let original_pdf_bytes := uploaded_file
  let original_size_bytes := original_pdf_bytes.length
  match lib.parse original_pdf_bytes with
  | .error e => ((none, none, none), [Diag.errorFatal e])
  | .ok pages =>
    let rebuilt := rebuildDocument lib compression_level image_quality pages
    match lib.serialize (compress_identical_objects rebuilt.1) with
    | .error e => ((none, none, none), rebuilt.2 ++ [Diag.errorFatal e])
    | .ok output_pdf_bytes =>
      ((some output_pdf_bytes, some original_size_bytes,
        some output_pdf_bytes.length), rebuilt.2)

/-- The output document (page list) that `reduce_pdf_size` hands to
serialization, when parsing succeeds. -/
def outputDocument (lib : Lib) (uploaded_file : Bytes)
    (compression_level image_quality : Nat) : Option (List Page) :=
  match lib.parse uploaded_file with
  | .error _ => none
  | .ok pages => some (compress_identical_objects
      (rebuildDocument lib compression_level image_quality pages).1)

/-- The caller-visible store across one invocation: the upload buffer the
host hands in (`uploaded_file`). -/
structure HostState where
  uploadBuffer : Bytes
deriving Repr, DecidableEq

/-- State-passing form of the entry point, making the frame effect on the
caller's buffer explicit: line 34 reads the buffer through `getvalue()`
(a read-only copy), and every subsequent write in the source targets the
fresh `PdfWriter` or the fresh in-memory `BytesIO` objects, never the
upload buffer, so the store component is returned unchanged. -/
def reduce_pdf_size_call (lib : Lib) (st : HostState)
    (compression_level image_quality : Nat) :
    HostState × ((Option Bytes × Option Nat × Option Nat) × List Diag) :=
  let original_pdf_bytes := st.uploadBuffer
  (st, reduce_pdf_size lib original_pdf_bytes compression_level image_quality)

/-- A photographic (JPEG-encoded) test image. -/
def jpgImg : ImageObj :=
  { hasGet := true, filter := some "/DCTDecode",
    pil := some { mode := "RGB", pixels := [1, 2, 3] }, data := [9, 9] }

/-- A non-photographic (Flate-encoded, PNG-style) test image. -/
def pngImg : ImageObj :=
  { hasGet := true, filter := some "/FlateDecode",
    pil := some { mode := "P", pixels := [4, 5] }, data := [7] }

/-- A test object without the expected `get` accessor. -/
def oddImg : ImageObj :=
  { hasGet := false, filter := none, pil := none, data := [3] }

/-- A test image whose data Pillow could not extract. -/
def noDataImg : ImageObj :=
  { hasGet := true, filter := some "/FlateDecode", pil := none, data := [6] }

/-- A concrete instantiation of the library boundary whose operations all
succeed, used to evaluate the pipeline on closed inputs. -/
def okLib : Lib :=
  { parse := fun b => if b.isEmpty then Except.error "not a pdf"
      else Except.ok [{ content := b, images := [jpgImg, pngImg] }]
  , deflate := fun _ c => c
  , serialize := fun ps => Except.ok (ps.map (fun p => p.content.length))
  , rgbOf := fun px => px
  , jpegEncode := fun px q => Except.ok (q :: px)
  , reencodeSameFamily := fun _ pil q => Except.ok (q :: pil.pixels) }

/-- Like `okLib`, but the parsed document has a single page holding a
single non-photographic image, and the Pillow JPEG encoder of the
aggressive fallback fails. -/
def c4AggLib : Lib :=
  { okLib with
    parse := fun b => if b.isEmpty then Except.error "not a pdf"
      else Except.ok [{ content := b, images := [pngImg] }]
    jpegEncode := fun _ _ => Except.error "jpeg encode failed" }

/-- Like `okLib`, but serialization fails. -/
def serFailLib : Lib :=
  { okLib with serialize := fun _ => Except.error "cannot serialize" }

/-- The pages built by the page loop are exactly the processed source
pages, in order. -/
theorem rebuildDocument_fst (lib : Lib) (compression_level image_quality : Nat)
    (pages : List Page) :
    (rebuildDocument lib compression_level image_quality pages).1 =
      pages.map (fun p => (processPage lib compression_level image_quality p).1) := by
  simp [rebuildDocument]

/-- The diagnostics of the page loop are the concatenation, in page
order, of each page's diagnostics. -/
theorem rebuildDocument_snd (lib : Lib) (compression_level image_quality : Nat)
    (pages : List Page) :
    (rebuildDocument lib compression_level image_quality pages).2 =
      (pages.map (fun p => (processPage lib compression_level image_quality p).2)).flatten := by
  simp only [rebuildDocument, List.map_map]
  rfl

/-- When `image_quality < 100`, the rewritten page carries the processed
images of the snapshot, in order. -/
theorem processPage_fst (lib : Lib) (compression_level image_quality : Nat)
    (page : Page) (hq : image_quality < 100) :
    (processPage lib compression_level image_quality page).1 =
      { content := lib.deflate compression_level page.content,
        images := page.images.map (fun im => (processImage lib image_quality im).1) } := by
  simp [processPage, hq]

/-- When `image_quality < 100`, the page's diagnostics are the
concatenation, in image order, of each image's diagnostics. -/
theorem processPage_snd (lib : Lib) (compression_level image_quality : Nat)
    (page : Page) (hq : image_quality < 100) :
    (processPage lib compression_level image_quality page).2 =
      (page.images.map (fun im => (processImage lib image_quality im).2)).flatten := by
  simp only [processPage, hq, if_true, List.map_map]
  rfl

/-- Mapping a function that is empty on every element flattens to the
empty list. -/
theorem flatten_map_eq_nil {α β : Type} (g : α → List β) (l : List α)
    (h : ∀ x ∈ l, g x = []) : (l.map g).flatten = [] := by
  rw [List.flatten_eq_nil_iff]
  intro ls hls
  rcases List.mem_map.mp hls with ⟨x, hx, hgx⟩
  exact hgx ▸ h x hx

/-- Flattening a map that is empty everywhere except at one marked
element yields exactly that element's contribution. -/
theorem flatten_map_single {α β : Type} (g : α → List β) (pre post : List α)
    (b : α) (d : List β) (h1 : ∀ x ∈ pre, g x = [])
    (h2 : ∀ x ∈ post, g x = []) (hb : g b = d) :
    ((pre ++ b :: post).map g).flatten = d := by
  simp [List.map_append, List.flatten_append, hb,
    flatten_map_eq_nil g pre h1, flatten_map_eq_nil g post h2]

/-- C1: Page-count invariant — for every input document that parses
successfully, the output document that `reduce_pdf_size` builds and
serializes contains exactly the same number of pages as the input, in the
same order (the i-th output page is the processed i-th input page), for
every `compression_level` and `image_quality` and regardless of per-image
outcomes; no page is ever dropped. -/
theorem pageCountInvariant (lib : Lib) (file : Bytes)
    (compression_level image_quality : Nat) (pages : List Page)
    (hparse : lib.parse file = Except.ok pages) :
    ∃ doc, outputDocument lib file compression_level image_quality = some doc ∧
      doc.length = pages.length ∧
      ∀ (i : Nat) (p : Page), pages[i]? = some p →
        doc[i]? = some (processPage lib compression_level image_quality p).1 := by
  refine ⟨compress_identical_objects
      (rebuildDocument lib compression_level image_quality pages).1, ?_, ?_, ?_⟩
  · simp [outputDocument, hparse]
  · simp [compress_identical_objects,
      rebuildDocument_fst lib compression_level image_quality pages]
  · intro i p hp
    simp [compress_identical_objects,
      rebuildDocument_fst lib compression_level image_quality pages, hp]

/-- Witness for C1: the invariant evaluated at a concrete library,
input and settings. -/
theorem pageCountInvariant_witness :
    ∃ doc, outputDocument okLib [1, 2] 9 80 = some doc ∧
      doc.length =
        ([{ content := [1, 2], images := [jpgImg, pngImg] }] : List Page).length ∧
      ∀ (i : Nat) (p : Page),
        ([{ content := [1, 2], images := [jpgImg, pngImg] }] : List Page)[i]? = some p →
        doc[i]? = some (processPage okLib 9 80 p).1 :=
  pageCountInvariant okLib [1, 2] 9 80
    [{ content := [1, 2], images := [jpgImg, pngImg] }] (by rfl)

/-- C2: Quality threshold behavior — for an embedded image whose filter
is not photographic, the aggressive re-encode is attempted exactly when
`image_quality ≤ 40`; for `image_quality` in `[41, 99]` the image is left
untouched with an informational (not warning-level) diagnostic; and at
`image_quality = 100` no image on any page is enumerated or processed at
all. -/
theorem qualityThreshold (lib : Lib) (image_quality : Nat) (img : ImageObj)
    (pil : PILImage) (hget : img.hasGet = true) (hpil : img.pil = some pil)
    (hfilter : isPhotographic (filterStr img.filter) = false) :
    (processImage lib image_quality img =
        aggressiveRecode lib image_quality img pil ↔ image_quality ≤ 40) ∧
    (41 ≤ image_quality → image_quality ≤ 99 →
      processImage lib image_quality img =
        (img, [Diag.infoNotCompressed image_quality]) ∧
      Diag.level (Diag.infoNotCompressed image_quality) = DiagLevel.info) ∧
    (∀ (compression_level : Nat) (page : Page),
      processPage lib compression_level 100 page =
        ({ page with content := lib.deflate compression_level page.content }, [])) := by
  refine ⟨?_, ?_, ?_⟩
  · by_cases hle : image_quality ≤ 40
    · exact iff_of_true (by simp [processImage, hget, hpil, hfilter, hle]) hle
    · refine iff_of_false ?_ hle
      intro heq
      rw [show processImage lib image_quality img =
          (img, [Diag.infoNotCompressed image_quality]) from
        by simp [processImage, hget, hpil, hfilter, hle]] at heq
      cases hje : lib.jpegEncode (PILImage.convertRGB lib pil).pixels image_quality with
      | ok nb => simp [aggressiveRecode, hje] at heq
      | error e => simp [aggressiveRecode, hje] at heq
  · intro h41 h99
    refine ⟨?_, rfl⟩
    simp [processImage, hget, hpil, hfilter, show ¬ image_quality ≤ 40 by omega]
  · intro compression_level page
    simp [processPage]

/-- Witness for C2: the threshold behavior evaluated at a concrete
library and a concrete non-photographic image at quality 50. -/
theorem qualityThreshold_witness :
    (processImage okLib 50 pngImg =
        aggressiveRecode okLib 50 pngImg { mode := "P", pixels := [4, 5] } ↔
      50 ≤ 40) ∧
    (41 ≤ 50 → 50 ≤ 99 →
      processImage okLib 50 pngImg = (pngImg, [Diag.infoNotCompressed 50]) ∧
      Diag.level (Diag.infoNotCompressed 50) = DiagLevel.info) ∧
    (∀ (compression_level : Nat) (page : Page),
      processPage okLib compression_level 100 page =
        ({ page with content := okLib.deflate compression_level page.content }, [])) :=
  qualityThreshold okLib 50 pngImg { mode := "P", pixels := [4, 5] }
    (by rfl) (by rfl) (by decide)

/-- C3: Photographic re-encode — an embedded image whose original filter
is already photographic (DCT/JPEG or JPEG2000) is re-encoded directly at
the given quality by the same-family re-encoder (pypdf `replace` with a
quality argument, no codec change), and its filter tag is preserved. -/
theorem photographicReencode (lib : Lib) (image_quality : Nat) (img : ImageObj)
    (pil : PILImage) (hget : img.hasGet = true) (hpil : img.pil = some pil)
    (hfilter : isPhotographic (filterStr img.filter) = true)
    (_hq : image_quality < 100) :
    processImage lib image_quality img =
      (match lib.reencodeSameFamily img.filter pil image_quality with
        | Except.ok newBytes => ({ img with data := newBytes }, [])
        | Except.error e => (img, [Diag.warnImageError e])) ∧
    (processImage lib image_quality img).1.filter = img.filter := by
  cases h : lib.reencodeSameFamily img.filter pil image_quality with
  | ok nb => exact ⟨by simp [processImage, hget, hpil, hfilter, h],
      by simp [processImage, hget, hpil, hfilter, h]⟩
  | error e => exact ⟨by simp [processImage, hget, hpil, hfilter, h],
      by simp [processImage, hget, hpil, hfilter, h]⟩

/-- Witness for C3: the photographic branch evaluated at a concrete
library and a concrete JPEG image at quality 60. -/
theorem photographicReencode_witness :
    processImage okLib 60 jpgImg =
      (match okLib.reencodeSameFamily jpgImg.filter
          { mode := "RGB", pixels := [1, 2, 3] } 60 with
        | Except.ok newBytes => ({ jpgImg with data := newBytes }, [])
        | Except.error e => (jpgImg, [Diag.warnImageError e])) ∧
    (processImage okLib 60 jpgImg).1.filter = jpgImg.filter :=
  photographicReencode okLib 60 jpgImg { mode := "RGB", pixels := [1, 2, 3] }
    (by rfl) (by rfl) (by decide) (by decide)

/-- C4: Per-image failure recovery — an image whose decode or re-encode
step raises, on either branch (the same-family re-encode of a
photographic image, or the convert-and-JPEG-encode of the aggressive
non-photographic fallback, both caught by the handler at line 94), is
left at its original encoding with a single warning diagnostic, and the
failure never aborts the run: a document that parses, all of whose other
images process cleanly, still serializes to a successful result with the
page count preserved and exactly that one failure diagnostic. -/
theorem perImageFailureRecovery (lib : Lib) (file : Bytes)
    (compression_level image_quality : Nat) (pages : List Page)
    (pref suff : List Page) (c : Bytes) (pre post : List ImageObj)
    (bad : ImageObj) (pil : PILImage) (e : String) (out : Bytes)
    (hq : image_quality < 100)
    (hget : bad.hasGet = true) (hpil : bad.pil = some pil)
    (hfail :
      (isPhotographic (filterStr bad.filter) = true ∧
        lib.reencodeSameFamily bad.filter pil image_quality = Except.error e) ∨
      (isPhotographic (filterStr bad.filter) = false ∧ image_quality ≤ 40 ∧
        lib.jpegEncode (PILImage.convertRGB lib pil).pixels image_quality =
          Except.error e))
    (hpages : pages = pref ++ { content := c, images := pre ++ bad :: post } :: suff)
    (hparse : lib.parse file = Except.ok pages)
    (hcleanPages : ∀ pg ∈ pref ++ suff, ∀ im ∈ pg.images,
      (processImage lib image_quality im).2 = [])
    (hcleanImgs : ∀ im ∈ pre ++ post, (processImage lib image_quality im).2 = [])
    (hser : lib.serialize (compress_identical_objects
        (rebuildDocument lib compression_level image_quality pages).1) =
      Except.ok out) :
    processImage lib image_quality bad = (bad, [Diag.warnImageError e]) ∧
    reduce_pdf_size lib file compression_level image_quality =
      ((some out, some file.length, some out.length), [Diag.warnImageError e]) ∧
    (rebuildDocument lib compression_level image_quality pages).1.length =
      pages.length := by
  subst hpages
  have hbadImg : processImage lib image_quality bad =
      (bad, [Diag.warnImageError e]) := by
    rcases hfail with ⟨hfilter, henc⟩ | ⟨hfilter, hle, henc⟩
    · simp [processImage, hget, hpil, hfilter, henc]
    · simp [processImage, hget, hpil, hfilter, hle, aggressiveRecode, henc]
  have hbadPage : (processPage lib compression_level image_quality
      { content := c, images := pre ++ bad :: post }).2 =
      [Diag.warnImageError e] := by
    rw [processPage_snd _ _ _ _ hq]
    exact flatten_map_single (fun im => (processImage lib image_quality im).2)
      pre post bad _
      (fun x hx => hcleanImgs x (List.mem_append_left _ hx))
      (fun x hx => hcleanImgs x (List.mem_append_right _ hx))
      (by simp only [hbadImg])
  have hdiag : (rebuildDocument lib compression_level image_quality
      (pref ++ { content := c, images := pre ++ bad :: post } :: suff)).2 =
      [Diag.warnImageError e] := by
    rw [rebuildDocument_snd]
    exact flatten_map_single
      (fun p => (processPage lib compression_level image_quality p).2)
      pref suff _ _
      (fun pg hpg => by
        show (processPage lib compression_level image_quality pg).2 = []
        rw [processPage_snd _ _ _ _ hq]
        exact flatten_map_eq_nil _ _
          (hcleanPages pg (List.mem_append_left _ hpg)))
      (fun pg hpg => by
        show (processPage lib compression_level image_quality pg).2 = []
        rw [processPage_snd _ _ _ _ hq]
        exact flatten_map_eq_nil _ _
          (hcleanPages pg (List.mem_append_right _ hpg)))
      hbadPage
  refine ⟨hbadImg, ?_, ?_⟩
  · simp [reduce_pdf_size, hparse, hser, hdiag]
  · rw [rebuildDocument_fst]
    simp

/-- Witness for C4: a one-page document with a single non-photographic
image whose aggressive-fallback JPEG encode fails at quality 30 still
runs to a successful result carrying exactly one warning diagnostic. -/
theorem perImageFailureRecovery_witness :
    processImage c4AggLib 30 pngImg =
      (pngImg, [Diag.warnImageError "jpeg encode failed"]) ∧
    reduce_pdf_size c4AggLib [1] 9 30 =
      ((some [1], some ([1] : Bytes).length, some ([1] : Bytes).length),
        [Diag.warnImageError "jpeg encode failed"]) ∧
    (rebuildDocument c4AggLib 9 30
        [{ content := [1], images := [pngImg] }]).1.length =
      ([{ content := [1], images := [pngImg] }] : List Page).length :=
  perImageFailureRecovery c4AggLib [1] 9 30
    [{ content := [1], images := [pngImg] }] [] [] [1] [] []
    pngImg { mode := "P", pixels := [4, 5] } "jpeg encode failed" [1]
    (by decide) (by rfl) (by rfl)
    (Or.inr ⟨by decide, by decide, by rfl⟩)
    (by rfl) (by rfl) (by simp) (by simp) (by rfl)

/-- C5: Fatal-failure result — a parse failure or a serialization failure
makes the whole run fail with a single structured error and no output:
`reduce_pdf_size` returns `(None, None, None)` with no partial output or
partial size metrics. -/
theorem fatalFailureResult (lib : Lib) (file : Bytes)
    (compression_level image_quality : Nat) :
    (∀ (e : String), lib.parse file = Except.error e →
      reduce_pdf_size lib file compression_level image_quality =
        ((none, none, none), [Diag.errorFatal e])) ∧
    (∀ (pages : List Page) (e : String), lib.parse file = Except.ok pages →
      lib.serialize (compress_identical_objects
          (rebuildDocument lib compression_level image_quality pages).1) =
        Except.error e →
      (reduce_pdf_size lib file compression_level image_quality).1 =
        (none, none, none)) := by
  constructor
  · intro e h
    simp [reduce_pdf_size, h]
  · intro pages e hp hs
    simp [reduce_pdf_size, hp, hs]

/-- Witness for C5: a failing parse and a failing serialization, each on
a concrete input, both yield the all-`none` triple. -/
theorem fatalFailureResult_witness :
    reduce_pdf_size okLib [] 9 80 =
      ((none, none, none), [Diag.errorFatal "not a pdf"]) ∧
    (reduce_pdf_size serFailLib [1] 9 80).1 = (none, none, none) :=
  ⟨(fatalFailureResult okLib [] 9 80).1 "not a pdf" (by rfl),
   (fatalFailureResult serFailLib [1] 9 80).2
     [{ content := [1], images := [jpgImg, pngImg] }] "cannot serialize"
     (by rfl) (by rfl)⟩

/-- C6: Aggressive non-photographic fallback — a non-photographic image
at `image_quality ≤ 40` is force-converted to a 3-channel RGB
representation, re-encoded as a JPEG-family stream at that quality, and
replaced with the new data, its filter tag changed to `/DCTDecode`. -/
theorem aggressiveFallback (lib : Lib) (image_quality : Nat) (img : ImageObj)
    (pil : PILImage) (newBytes : Bytes)
    (hget : img.hasGet = true) (hpil : img.pil = some pil)
    (hfilter : isPhotographic (filterStr img.filter) = false)
    (hq : image_quality ≤ 40)
    (henc : lib.jpegEncode (PILImage.convertRGB lib pil).pixels image_quality =
      Except.ok newBytes) :
    (PILImage.convertRGB lib pil).mode = "RGB" ∧
    processImage lib image_quality img =
      ({ img with data := newBytes, filter := some "/DCTDecode" }, []) := by
  refine ⟨rfl, ?_⟩
  simp [processImage, hget, hpil, hfilter, hq, aggressiveRecode, henc]

/-- Witness for C6: a concrete PNG-style image at quality 30 is converted
and replaced, with the filter tag set to `/DCTDecode`. -/
theorem aggressiveFallback_witness :
    (PILImage.convertRGB okLib { mode := "P", pixels := [4, 5] }).mode = "RGB" ∧
    processImage okLib 30 pngImg =
      ({ pngImg with data := [30, 4, 5], filter := some "/DCTDecode" }, []) :=
  aggressiveFallback okLib 30 pngImg { mode := "P", pixels := [4, 5] } [30, 4, 5]
    (by rfl) (by rfl) (by decide) (by decide) (by rfl)

/-- C7: Size metrics — on a successful run the returned original size is
the length of the raw input bytes and the returned compressed size is the
length of the fully serialized output document. -/
theorem sizeMetrics (lib : Lib) (file : Bytes)
    (compression_level image_quality : Nat) (pages : List Page) (out : Bytes)
    (hparse : lib.parse file = Except.ok pages)
    (hser : lib.serialize (compress_identical_objects
        (rebuildDocument lib compression_level image_quality pages).1) =
      Except.ok out) :
    (reduce_pdf_size lib file compression_level image_quality).1 =
      (some out, some file.length, some out.length) := by
  simp [reduce_pdf_size, hparse, hser]

/-- Witness for C7: the metrics evaluated on a concrete two-byte input. -/
theorem sizeMetrics_witness :
    (reduce_pdf_size okLib [5, 6] 9 80).1 =
      (some [2], some ([5, 6] : Bytes).length, some ([2] : Bytes).length) :=
  sizeMetrics okLib [5, 6] 9 80
    [{ content := [5, 6], images := [jpgImg, pngImg] }] [2] (by rfl) (by rfl)

/-- C8: Snapshot-then-mutate — the images enumerated for recompression
are snapshotted from the page before replacement begins, so the i-th
output image is determined by the i-th source image alone: no image on
the page is skipped or processed twice, and each contributes its
diagnostics exactly once, in order. -/
theorem snapshotEnumeration (lib : Lib) (compression_level image_quality : Nat)
    (page : Page) (hq : image_quality < 100) :
    (processPage lib compression_level image_quality page).1.images.length =
      page.images.length ∧
    (∀ (i : Nat) (im : ImageObj), page.images[i]? = some im →
      (processPage lib compression_level image_quality page).1.images[i]? =
        some (processImage lib image_quality im).1) ∧
    (processPage lib compression_level image_quality page).2 =
      (page.images.map (fun im => (processImage lib image_quality im).2)).flatten := by
  refine ⟨?_, ?_, processPage_snd lib compression_level image_quality page hq⟩
  · rw [processPage_fst _ _ _ _ hq]
    simp
  · intro i im him
    rw [processPage_fst _ _ _ _ hq]
    simp [him]

/-- Witness for C8: the snapshot property evaluated on a concrete page
with three images. -/
theorem snapshotEnumeration_witness :
    (processPage okLib 9 30
        { content := [1], images := [jpgImg, pngImg, noDataImg] }).1.images.length =
      ([jpgImg, pngImg, noDataImg] : List ImageObj).length ∧
    (∀ (i : Nat) (im : ImageObj),
      ([jpgImg, pngImg, noDataImg] : List ImageObj)[i]? = some im →
      (processPage okLib 9 30
          { content := [1], images := [jpgImg, pngImg, noDataImg] }).1.images[i]? =
        some (processImage okLib 30 im).1) ∧
    (processPage okLib 9 30
        { content := [1], images := [jpgImg, pngImg, noDataImg] }).2 =
      (([jpgImg, pngImg, noDataImg] : List ImageObj).map
        (fun im => (processImage okLib 30 im).2)).flatten :=
  snapshotEnumeration okLib 9 30
    { content := [1], images := [jpgImg, pngImg, noDataImg] } (by decide)

/-- C9: Input immutability — in the state-passing form of the entry
point, the caller's upload buffer is returned unchanged by every
invocation, successful or failed, for every argument combination; all
transformations act on the separately built output document. -/
theorem inputImmutability (lib : Lib) (st : HostState)
    (compression_level image_quality : Nat) :
    (reduce_pdf_size_call lib st compression_level image_quality).1 = st ∧
    (reduce_pdf_size_call lib st compression_level image_quality).2 =
      reduce_pdf_size lib st.uploadBuffer compression_level image_quality :=
  ⟨rfl, rfl⟩

/-- C10: Degenerate image objects — an image object without the expected
accessor, or whose extracted pixel buffer is missing, is skipped without
aborting: its bytes stay unchanged, a diagnostic is recorded, and the
remaining images on the page are still processed. -/
theorem degenerateImageSkip (lib : Lib) (compression_level image_quality : Nat)
    (c : Bytes) (pre post : List ImageObj) (bad : ImageObj)
    (hq : image_quality < 100)
    (hbad : bad.hasGet = false ∨ (bad.hasGet = true ∧ bad.pil = none)) :
    (processImage lib image_quality bad).1 = bad ∧
    (bad.hasGet = false →
      processImage lib image_quality bad = (bad, [Diag.warnUnexpectedObject])) ∧
    (bad.hasGet = true → bad.pil = none →
      processImage lib image_quality bad = (bad, [Diag.infoNoData])) ∧
    (processPage lib compression_level image_quality
        { content := c, images := pre ++ bad :: post }).1.images =
      pre.map (fun im => (processImage lib image_quality im).1) ++
        bad :: post.map (fun im => (processImage lib image_quality im).1) := by
  have h1 : (processImage lib image_quality bad).1 = bad := by
    rcases hbad with h | ⟨h, h2⟩
    · simp [processImage, h]
    · simp [processImage, h, h2]
  refine ⟨h1, ?_, ?_, ?_⟩
  · intro h
    simp [processImage, h]
  · intro h h2
    simp [processImage, h, h2]
  · rw [processPage_fst _ _ _ _ hq]
    simp [List.map_append, h1]

/-- Witness for C10: a concrete image with an unextractable pixel buffer
is skipped while its neighbors are still processed. -/
theorem degenerateImageSkip_witness :
    (processImage okLib 30 noDataImg).1 = noDataImg ∧
    (noDataImg.hasGet = false →
      processImage okLib 30 noDataImg = (noDataImg, [Diag.warnUnexpectedObject])) ∧
    (noDataImg.hasGet = true → noDataImg.pil = none →
      processImage okLib 30 noDataImg = (noDataImg, [Diag.infoNoData])) ∧
    (processPage okLib 9 30
        { content := [2], images := [jpgImg] ++ noDataImg :: [pngImg] }).1.images =
      ([jpgImg] : List ImageObj).map (fun im => (processImage okLib 30 im).1) ++
        noDataImg ::
          ([pngImg] : List ImageObj).map (fun im => (processImage okLib 30 im).1) :=
  degenerateImageSkip okLib 9 30 [2] [jpgImg] [pngImg] noDataImg (by decide)
    (Or.inr ⟨rfl, rfl⟩)

end PDFShrink
